import Mathlib

/-!
Shallow embedding of the request-handling layer of the student record API
(src/app.py): the pydantic models, their validation behaviour, the MongoDB
store primitives the handlers invoke (insert_one, find_one, update_one with
a set of fields, delete_one, find with filters and a 1000-record cap), and
the five endpoint handlers (create, list, fetch, update, delete).

Modelling conventions:
- The document store is an association list from the canonical 24-hex-char
  string form of an ObjectId to the document fields.
- A request body is a JSON object, modelled as an association list of keys
  to JSON values (strings, integers, null and nested objects suffice for
  this API; lax string-to-number coercion is not modelled).
- A handler outcome is either a successful response with a status code, a
  raised HTTPException (status and detail), a 422 request-validation
  failure produced by the framework before the handler body runs, or an
  exception that no handler catches (it escapes the handler entirely).
-/

set_option autoImplicit false

/-- A JSON value, restricted to the forms this API exchanges. -/
inductive JValue where
  | null
  | str (s : String)
  | int (n : Int)
  | obj (fields : List (String × JValue))

/-- A JSON object body: an association list of keys to values. -/
abbrev JObj := List (String × JValue)

/-- Key lookup in a JSON object (first binding wins). -/
def jLookup (o : JObj) (k : String) : Option JValue :=
  match o with
  | [] => none
  | p :: rest => if p.1 == k then some p.2 else jLookup rest k

/-- Rendering of a JSON value by Python's str(), as applied by the
BeforeValidator(str) on PyObjectId. Only the string case is ever relevant
to the claims; the others are included for totality. -/
def jvalueToStr : JValue → String
  | .null => "None"
  | .str s => s
  | .int n => toString n
  | .obj _ => "dict"

/-- The AddressModel pydantic model of src/app.py: city and country, both
required strings. -/
structure AddressModel where
  city : String
  country : String
deriving DecidableEq, Repr

/-- Validation of a JSON value against AddressModel: it must be an object
with string values under the keys city and country (extra keys ignored,
matching pydantic's default). -/
def AddressModel.validate : JValue → Option AddressModel
  | .obj fields =>
    match jLookup fields "city", jLookup fields "country" with
    | some (.str c), some (.str k) => some ⟨c, k⟩
    | _, _ => none
  | _ => none

/-- The StudentModel pydantic model of src/app.py: an optional id (aliased
to the reserved store key, populate_by_name enabled, rendered as a string
by a BeforeValidator), and required name, age and address. -/
structure StudentModel where
  id : Option String
  name : String
  age : Int
  address : AddressModel
deriving DecidableEq, Repr

/-- Extraction of the optional client-supplied identifier: the alias key is
consulted first, then the field name (populate_by_name=True); a present
non-null value is rendered as a string, a null or absent one yields none. -/
def clientId (body : JObj) : Option String :=
  match jLookup body "_id" with
  | some .null => none
  | some v => some (jvalueToStr v)
  | none =>
    match jLookup body "id" with
    | some .null => none
    | some v => some (jvalueToStr v)
    | none => none

/-- Validation of a creation body against StudentModel: name must be a
string, age an integer, address a valid AddressModel; the id field is
optional and never causes a failure. There is no non-emptiness constraint
on name in the source (name: str = Field(...)). -/
def StudentModel.validate (body : JObj) : Option StudentModel :=
  match jLookup body "name", jLookup body "age", jLookup body "address" with
  | some (.str n), some (.int a), some av =>
    match AddressModel.validate av with
    | some ad => some ⟨clientId body, n, a, ad⟩
    | none => none
  | _, _, _ => none

/-- The UpdateStudentModel pydantic model of src/app.py. Under pydantic v2
(which this source uses: ConfigDict, model_dump, functional_validators) a
field annotated Optional[X] with no default is REQUIRED: it must be present
in the body, though its value may be null. -/
structure UpdateStudentModel where
  name : Option String
  age : Option Int
  address : Option AddressModel
deriving DecidableEq, Repr

/-- Validation of one Optional[str] field value: null or a string. -/
def validateOptStr : JValue → Option (Option String)
  | .null => some none
  | .str s => some (some s)
  | _ => none

/-- Validation of one Optional[int] field value: null or an integer. -/
def validateOptInt : JValue → Option (Option Int)
  | .null => some none
  | .int n => some (some n)
  | _ => none

/-- Validation of one Optional[AddressModel] field value: null or a fully
valid address object. -/
def validateOptAddress : JValue → Option (Option AddressModel)
  | .null => some none
  | v =>
    match AddressModel.validate v with
    | some a => some (some a)
    | none => none

/-- Validation of an update body against UpdateStudentModel: each of the
three keys must be PRESENT (pydantic v2 semantics for Optional without a
default), and a present value must be null or of the field's type. -/
def UpdateStudentModel.validate (body : JObj) : Option UpdateStudentModel :=
  match jLookup body "name", jLookup body "age", jLookup body "address" with
  | some nv, some av, some adv =>
    match validateOptStr nv, validateOptInt av, validateOptAddress adv with
    | some n, some a, some ad => some ⟨n, a, ad⟩
    | _, _, _ => none
  | _, _, _ => none

/-- Since every UpdateStudentModel field is required, model_dump with
exclude_unset dumps all three fields; the handler then keeps the non-None
ones, so the size of the update dictionary is the number of fields holding
a value. -/
def UpdateStudentModel.updateDataLen (m : UpdateStudentModel) : Nat :=
  (if m.name.isSome then 1 else 0) +
  (if m.age.isSome then 1 else 0) +
  (if m.address.isSome then 1 else 0)

/-- The list-view projection returned by the list endpoint: name and age
only (ListResponseStudent in src/app.py). -/
structure ListResponseStudent where
  name : String
  age : Int
deriving DecidableEq, Repr

/-- The named container wrapping the list result (StudentCollection in
src/app.py); it exists so that the response is never a bare top-level JSON
array. -/
structure StudentCollection where
  data : List ListResponseStudent
deriving DecidableEq, Repr

/-- The creation response body: the string form of the assigned id. -/
structure CreateStudentResponse where
  id : String
deriving DecidableEq, Repr

/-- The detail-view returned by the fetch endpoint: name, age and address,
no id (GetSingleStudentResponse in src/app.py). -/
structure GetSingleStudentResponse where
  name : String
  age : Int
  address : AddressModel
deriving DecidableEq, Repr

/-- A stored student document's fields other than the reserved id key. -/
structure StudentDoc where
  name : String
  age : Int
  address : AddressModel
deriving DecidableEq, Repr

/-- The students collection: canonical id strings paired with documents. -/
abbrev Store := List (String × StudentDoc)

/-- Whether a character is a hexadecimal digit. -/
def isHexDigitChar (c : Char) : Bool :=
  c.isDigit || ('a' ≤ c && c ≤ 'f') || ('A' ≤ c && c ≤ 'F')

/-- Whether ObjectId(s) succeeds: bson accepts exactly the 24-character
hexadecimal string form. Any other string raises bson.errors.InvalidId. -/
def objectIdValid (s : String) : Bool :=
  s.length == 24 && s.toList.all isHexDigitChar

/-- The outcome of one request against an endpoint. -/
inductive Response (α : Type) where
  | success (status : Nat) (body : α)
  | httpError (status : Nat) (detail : String)
  | validationError
  | uncaughtException (exc : String)

/-- find_one by id: the first document whose reserved id key equals the
given id string. -/
def findOne (store : Store) (id : String) : Option StudentDoc :=
  match store with
  | [] => none
  | p :: rest => if p.1 == id then some p.2 else findOne rest id

/-- find_one by id, keeping the stored id alongside the document (the raw
document as Mongo returns it, reserved key included). -/
def findOneWithId (store : Store) (id : String) : Option (String × StudentDoc) :=
  match store with
  | [] => none
  | p :: rest => if p.1 == id then some p else findOneWithId rest id

/-- Application of an update_one set-fields document built from the
non-None fields of an UpdateStudentModel: each field holding a value
overwrites the stored field, each None field leaves the stored field
untouched (it is never written and never cleared). -/
def applySet (m : UpdateStudentModel) (d : StudentDoc) : StudentDoc :=
  { name := m.name.getD d.name
    age := m.age.getD d.age
    address := m.address.getD d.address }

/-- Rewriting of the first document matching the id with the set-fields
update (update_one touches at most one document). -/
def setFirst (store : Store) (id : String) (m : UpdateStudentModel) : Store :=
  match store with
  | [] => []
  | p :: rest => if p.1 == id then (p.1, applySet m p.2) :: rest else p :: setFirst rest id m

/-- update_one with a set-fields document scoped to an id: when no document
matches, nothing changes and the modified count is 0; when one matches, its
fields are overwritten and the modified count is 1 exactly when the applied
document differs from the stored one. -/
def updateOne (store : Store) (id : String) (m : UpdateStudentModel) : Nat × Store :=
  match findOne store id with
  | none => (0, store)
  | some d => (if applySet m d = d then 0 else 1, setFirst store id m)

/-- Removal of the first document matching the id (delete_one deletes at
most one document). -/
def eraseFirst (store : Store) (id : String) : Store :=
  match store with
  | [] => []
  | p :: rest => if p.1 == id then rest else p :: eraseFirst rest id

/-- delete_one scoped to an id: the deleted count is 1 when a document
matches (and that document is removed), 0 otherwise. -/
def deleteOne (store : Store) (id : String) : Nat × Store :=
  match findOne store id with
  | none => (0, store)
  | some _ => (1, eraseFirst store id)

/-- The filter document built by list_students: an optional exact-match
constraint on address.country and an optional minimum-age constraint. -/
structure ListQuery where
  country : Option String
  minAge : Option Int

/-- Construction of the filter document from the query parameters, as
list_students does: the country key is added only when the parameter is
truthy (a non-empty string), the age key whenever the parameter is not
None. -/
def buildListQuery (country : Option String) (age : Option Int) : ListQuery :=
  { country :=
      match country with
      | some c => if c.isEmpty then none else some c
      | none => none
    minAge := age }

/-- Whether a document satisfies the filter: equality on address.country
when that constraint is present, age greater than or equal to the bound
when that constraint is present, conjoined. -/
def mongoMatch (q : ListQuery) (d : StudentDoc) : Bool :=
  (match q.country with
   | some c => d.address.country == c
   | none => true) &&
  (match q.minAge with
   | some a => decide (a ≤ d.age)
   | none => true)

/-- The POST handler create_student: validate the body against
StudentModel, dump it excluding the id field (so any client-supplied id is
dropped), insert it as a new document under the store-assigned fresh id,
re-fetch by that id, and answer 201 with the string form of the stored id.
The store-assigned identifier is passed as the freshId parameter. -/
def create_student (store : Store) (freshId : String) (body : JObj) :
    Response CreateStudentResponse × Store :=
  match StudentModel.validate body with
  | none => (.validationError, store)
  | some s =>
    let store' : Store := (freshId, StudentDoc.mk s.name s.age s.address) :: store
    match findOneWithId store' freshId with
    | some p => (.success 201 ⟨p.1⟩, store')
    | none => (.uncaughtException "TypeError", store')

/-- The GET collection handler list_students: build the filter from the
query parameters, run find with the name-and-age projection, cap the
result at 1000 documents, and wrap it in the named container. -/
def list_students (store : Store) (country : Option String) (age : Option Int) :
    StudentCollection :=
  let q := buildListQuery country age
  ⟨((store.filter (fun p => mongoMatch q p.2)).take 1000).map
      (fun p => ListResponseStudent.mk p.2.name p.2.age)⟩

/-- The GET item handler fetch_student: ObjectId(id) raises an uncaught
InvalidId on a malformed id; otherwise find_one with the id-suppressing
projection answers 200 with the detail view on a match and a 404 naming
the requested id otherwise. -/
def fetch_student (store : Store) (id : String) : Response GetSingleStudentResponse :=
  if objectIdValid id then
    match findOne store id with
    | some d => .success 200 ⟨d.name, d.age, d.address⟩
    | none => .httpError 404 ("Student " ++ id ++ " not found")
  else .uncaughtException "bson.errors.InvalidId"

/-- The PATCH handler update_student: validate the body, keep the fields
that are set and non-None, and if that update set is non-empty issue
update_one (ObjectId(id) raising uncaught InvalidId on a malformed id); a
modified count of 1 answers 204; otherwise a follow-up find_one by id
answers 204 when the document exists and a 404 naming the id when it does
not. An empty update set skips the write and goes straight to the probe. -/
def update_student (store : Store) (id : String) (body : JObj) :
    Response Unit × Store :=
  match UpdateStudentModel.validate body with
  | none => (.validationError, store)
  | some m =>
    if m.updateDataLen > 0 then
      if objectIdValid id then
        let r := updateOne store id m
        if r.1 = 1 then (.success 204 (), r.2)
        else
          match findOne r.2 id with
          | some _ => (.success 204 (), r.2)
          | none => (.httpError 404 ("Student " ++ id ++ " not found"), r.2)
      else (.uncaughtException "bson.errors.InvalidId", store)
    else
      if objectIdValid id then
        match findOne store id with
        | some _ => (.success 204 (), store)
        | none => (.httpError 404 ("Student " ++ id ++ " not found"), store)
      else (.uncaughtException "bson.errors.InvalidId", store)

/-- The DELETE handler delete_student: ObjectId(id) raises an uncaught
InvalidId on a malformed id; otherwise delete_one scoped to the id answers
200 with an empty body on a deleted count of 1 and a 404 naming the id on
a deleted count of 0. -/
def delete_student (store : Store) (id : String) : Response Unit × Store :=
  if objectIdValid id then
    let r := deleteOne store id
    if r.1 = 1 then (.success 200 (), r.2)
    else (.httpError 404 ("Student " ++ id ++ " not found"), r.2)
  else (.uncaughtException "bson.errors.InvalidId", store)

/-! Concrete values used by witnesses and counterexamples. -/

/-- A canonical 24-hex-character id. -/
def exId : String := "aaaaaaaaaaaaaaaaaaaaaaaa"

/-- A second canonical id, distinct from exId. -/
def exId2 : String := "bbbbbbbbbbbbbbbbbbbbbbbb"

/-- A string that is not the canonical form of any ObjectId. -/
def badId : String := "not-an-objectid"

/-- The example address from the source's schema example. -/
def exAddress : AddressModel := ⟨"Agra", "India"⟩

/-- The example student document from the source's schema example. -/
def exDoc : StudentDoc := ⟨"Jane Doe", 22, exAddress⟩

/-- A second student document. -/
def exDoc2 : StudentDoc := ⟨"Rahul", 20, ⟨"Delhi", "India"⟩⟩

/-- A one-record store. -/
def exStore : Store := [(exId, exDoc)]

/-- A two-record store. -/
def exStore2 : Store := [(exId, exDoc), (exId2, exDoc2)]

/-- The address sub-object of the example creation body. -/
def exAddrFields : JObj := [("city", JValue.str "Agra"), ("country", JValue.str "India")]

/-- The example creation body from the source's schema example. -/
def exCreateBody : JObj :=
  [("name", JValue.str "Jane Doe"), ("age", JValue.int 22),
   ("address", JValue.obj exAddrFields)]

/-- The StudentModel the example creation body validates to. -/
def exStudentModel : StudentModel := ⟨none, "Jane Doe", 22, exAddress⟩

/-- An update body setting age to 23 and carrying null for the other two
required fields. -/
def exPatchBody : JObj :=
  [("name", JValue.null), ("age", JValue.int 23), ("address", JValue.null)]

/-- The UpdateStudentModel the example update body validates to. -/
def exPatchModel : UpdateStudentModel := ⟨none, some 23, none⟩

/-! Helper lemmas about the store primitives. -/

/-- An update set of size zero holds no field, so applying it changes
nothing. -/
lemma applySet_id_of_updateDataLen_zero (m : UpdateStudentModel)
    (h : m.updateDataLen = 0) (d : StudentDoc) : applySet m d = d := by
  obtain ⟨n, a, ad⟩ := m
  cases n <;> cases a <;> cases ad <;>
    simp_all [UpdateStudentModel.updateDataLen, applySet]

/-- Rewriting with an update that changes nothing leaves the store
unchanged. -/
lemma setFirst_id_of (store : Store) (id : String) (m : UpdateStudentModel)
    (h : ∀ d, applySet m d = d) : setFirst store id m = store := by
  induction store with
  | nil => rfl
  | cons p rest ih =>
    simp only [setFirst]
    split
    · rw [h p.2]
    · rw [ih]

/-- Looking up the updated id after a set-fields rewrite yields the updated
document. -/
lemma findOne_setFirst (store : Store) (id : String) (m : UpdateStudentModel) :
    findOne (setFirst store id m) id = (findOne store id).map (applySet m) := by
  induction store with
  | nil => rfl
  | cons p rest ih =>
    simp only [setFirst]
    split
    · next hcond => simp [findOne, hcond]
    · next hcond => simp [findOne, hcond, ih]

/-- An id that is not among the stored keys is not found. -/
lemma findOne_eq_none_of_not_mem (store : Store) (id : String)
    (h : id ∉ store.map Prod.fst) : findOne store id = none := by
  induction store with
  | nil => rfl
  | cons p rest ih =>
    simp only [List.map_cons, List.mem_cons, not_or] at h
    have hne : (p.1 == id) = false := beq_eq_false_iff_ne.mpr (fun he => h.1 he.symm)
    simp [findOne, hne, ih h.2]

/-- After erasing an id from a store with distinct keys, that id is no
longer found. -/
lemma findOne_eraseFirst_self (store : Store) (id : String)
    (hnd : (store.map Prod.fst).Nodup) : findOne (eraseFirst store id) id = none := by
  induction store with
  | nil => rfl
  | cons p rest ih =>
    simp only [List.map_cons, List.nodup_cons] at hnd
    simp only [eraseFirst]
    split
    · next hcond =>
      have hmem : id ∉ rest.map Prod.fst := by
        have he : p.1 = id := eq_of_beq hcond
        rw [← he]
        exact hnd.1
      exact findOne_eq_none_of_not_mem rest id hmem
    · next hcond => simp [findOne, hcond, ih hnd.2]

/-! Characterizations of the handlers. -/

/-- Creation with a body that validates inserts exactly one new document
holding the body's name, age and address (the client id field does not
appear), and answers 201 with the assigned id string. -/
lemma create_student_eq (store : Store) (freshId : String) (body : JObj)
    (s : StudentModel) (hv : StudentModel.validate body = some s) :
    create_student store freshId body =
      (Response.success 201 ⟨freshId⟩,
       (freshId, StudentDoc.mk s.name s.age s.address) :: store) := by
  simp [create_student, hv, findOneWithId]

/-- Fetching a well-formed id that is stored answers 200 with the
projection of the stored document. -/
lemma fetch_student_found (store : Store) (id : String) (d : StudentDoc)
    (hid : objectIdValid id = true) (hd : findOne store id = some d) :
    fetch_student store id = .success 200 ⟨d.name, d.age, d.address⟩ := by
  simp [fetch_student, hid, hd]

/-- Fetching a well-formed id that is not stored answers 404 naming the
requested id. -/
lemma fetch_student_missing (store : Store) (id : String)
    (hid : objectIdValid id = true) (hd : findOne store id = none) :
    fetch_student store id = .httpError 404 ("Student " ++ id ++ " not found") := by
  simp [fetch_student, hid, hd]

/-- Updating a stored well-formed id with a body that validates answers 204
and rewrites exactly the non-None fields of the first matching document,
whether the write modifies it, leaves it identical, or is skipped because
the update set is empty. -/
lemma update_student_found (store : Store) (id : String) (body : JObj)
    (m : UpdateStudentModel) (d : StudentDoc)
    (hv : UpdateStudentModel.validate body = some m)
    (hid : objectIdValid id = true) (hd : findOne store id = some d) :
    update_student store id body = (.success 204 (), setFirst store id m) := by
  by_cases hl : m.updateDataLen > 0
  · by_cases hchg : applySet m d = d
    · have hp : findOne (setFirst store id m) id = some (applySet m d) := by
        rw [findOne_setFirst, hd]
        rfl
      simp [update_student, hv, hl, hid, updateOne, hd, hchg, hp]
    · simp [update_student, hv, hl, hid, updateOne, hd, hchg]
  · have hz := Nat.eq_zero_of_not_pos hl
    have hs : setFirst store id m = store :=
      setFirst_id_of _ _ _ (applySet_id_of_updateDataLen_zero m hz)
    simp [update_student, hv, hl, hid, hd, hs]

/-- Updating a well-formed id that is not stored, with a body that
validates, leaves the store unchanged and answers 404 naming the id. -/
lemma update_student_missing (store : Store) (id : String) (body : JObj)
    (m : UpdateStudentModel)
    (hv : UpdateStudentModel.validate body = some m)
    (hid : objectIdValid id = true) (hd : findOne store id = none) :
    update_student store id body =
      (.httpError 404 ("Student " ++ id ++ " not found"), store) := by
  by_cases hl : m.updateDataLen > 0
  · simp [update_student, hv, hl, hid, updateOne, hd]
  · simp [update_student, hv, hl, hid, hd]

/-- Deleting a stored well-formed id removes that document and answers 200
with an empty body. -/
lemma delete_student_found (store : Store) (id : String) (d : StudentDoc)
    (hid : objectIdValid id = true) (hd : findOne store id = some d) :
    delete_student store id = (.success 200 (), eraseFirst store id) := by
  simp [delete_student, hid, deleteOne, hd]

/-- Deleting a well-formed id that is not stored leaves the store unchanged
and answers 404 naming the id. -/
lemma delete_student_missing (store : Store) (id : String)
    (hid : objectIdValid id = true) (hd : findOne store id = none) :
    delete_student store id =
      (.httpError 404 ("Student " ++ id ++ " not found"), store) := by
  simp [delete_student, hid, deleteOne, hd]

/-- With a country parameter that is absent or non-empty, and a store small
enough that the 1000-record cap does not bite, the list endpoint returns
exactly the name-age projections of the records matching the equality
filter on address.country and the minimum filter on age, conjoined. -/
lemma list_students_eq (store : Store) (country : Option String) (age : Option Int)
    (hc : ∀ c, country = some c → c ≠ "")
    (hlen : store.length ≤ 1000) :
    (list_students store country age).data =
      (store.filter (fun p =>
        (match country with
         | some c => p.2.address.country == c
         | none => true) &&
        (match age with
         | some a => decide (a ≤ p.2.age)
         | none => true))).map (fun p => ListResponseStudent.mk p.2.name p.2.age) := by
  have hq : buildListQuery country age = ⟨country, age⟩ := by
    cases country with
    | none => rfl
    | some c =>
      have hne : ¬ c.isEmpty = true := by
        simp only [String.isEmpty_iff]
        exact hc c rfl
      simp [buildListQuery, hne]
  have hlen2 : (store.filter (fun p => mongoMatch ⟨country, age⟩ p.2)).length ≤ 1000 :=
    le_trans (List.length_filter_le _ _) hlen
  simp only [list_students, hq]
  rw [List.take_of_length_le hlen2]
  rfl

/-- The list endpoint always returns at most 1000 entries, each the
name-age projection of some stored record. -/
lemma list_students_shape (store : Store) (country : Option String) (age : Option Int) :
    (list_students store country age).data.length ≤ 1000 ∧
    ∀ r ∈ (list_students store country age).data,
      ∃ p ∈ store, r = ListResponseStudent.mk p.2.name p.2.age := by
  constructor
  · simp only [list_students, List.length_map]
    exact List.length_take_le _ _
  · intro r hr
    simp only [list_students, List.mem_map] at hr
    obtain ⟨p, hp, hrp⟩ := hr
    exact ⟨p, List.mem_of_mem_filter (List.mem_of_mem_take hp), hrp.symm⟩

/-- A JSON value validates as an AddressModel exactly when it is an object
carrying string values under the city and country keys. -/
lemma addressModel_validate_isSome (v : JValue) :
    (AddressModel.validate v).isSome = true ↔
      ∃ fields, v = JValue.obj fields ∧
        (∃ c, jLookup fields "city" = some (JValue.str c)) ∧
        (∃ k, jLookup fields "country" = some (JValue.str k)) := by
  cases v with
  | obj fields =>
    have heq : AddressModel.validate (JValue.obj fields) =
        (match jLookup fields "city", jLookup fields "country" with
         | some (.str c), some (.str k) => some ⟨c, k⟩
         | _, _ => none) := rfl
    rw [heq]
    constructor
    · intro h
      split at h
      · next c k hc hk => exact ⟨fields, rfl, ⟨c, hc⟩, ⟨k, hk⟩⟩
      · simp at h
    · rintro ⟨fields', hf, ⟨c, hc⟩, ⟨k, hk⟩⟩
      injection hf with hfe
      subst hfe
      simp only [hc, hk]
      rfl
  | null =>
    constructor
    · intro h
      exact Bool.noConfusion h
    · rintro ⟨fields, hf, -, -⟩
      exact JValue.noConfusion hf
  | str s =>
    constructor
    · intro h
      exact Bool.noConfusion h
    · rintro ⟨fields, hf, -, -⟩
      exact JValue.noConfusion hf
  | int n =>
    constructor
    · intro h
      exact Bool.noConfusion h
    · rintro ⟨fields, hf, -, -⟩
      exact JValue.noConfusion hf

/-- A creation body validates exactly when name is present with a string
value, age with an integer value, and address with a value that validates
as an AddressModel; the id field never decides acceptance. -/
lemma studentModel_validate_isSome (body : JObj) :
    (StudentModel.validate body).isSome = true ↔
      (∃ n, jLookup body "name" = some (JValue.str n)) ∧
      (∃ a, jLookup body "age" = some (JValue.int a)) ∧
      (∃ av, jLookup body "address" = some av ∧
        (AddressModel.validate av).isSome = true) := by
  have heq : StudentModel.validate body =
      (match jLookup body "name", jLookup body "age", jLookup body "address" with
       | some (.str n), some (.int a), some av =>
         match AddressModel.validate av with
         | some ad => some ⟨clientId body, n, a, ad⟩
         | none => none
       | _, _, _ => none) := rfl
  rw [heq]
  constructor
  · intro h
    split at h
    · next n a av hn ha hav =>
      refine ⟨⟨n, hn⟩, ⟨a, ha⟩, ⟨av, hav, ?_⟩⟩
      cases hv : AddressModel.validate av with
      | some ad => rfl
      | none =>
        rw [hv] at h
        exact Bool.noConfusion h
    · simp at h
  · rintro ⟨⟨n, hn⟩, ⟨a, ha⟩, ⟨av, hav, hs⟩⟩
    obtain ⟨ad, had⟩ := Option.isSome_iff_exists.mp hs
    simp only [hn, ha, hav, had]
    rfl

/-! Claim theorems. -/

/-- Claim C1: the claim asserts that a malformed id on fetch, update and
delete yields a 404 or 400 client error rather than an unhandled
exception. The code contradicts it: each handler calls ObjectId(id) with
no try/except, so on the malformed id the outcome of all three handlers is
the uncaught bson.errors.InvalidId exception, not an HTTP client error. -/
theorem c1_malformed_id_uncaught :
    fetch_student exStore badId = Response.uncaughtException "bson.errors.InvalidId" ∧
    (update_student exStore badId exPatchBody).1 =
      Response.uncaughtException "bson.errors.InvalidId" ∧
    (delete_student exStore badId).1 =
      Response.uncaughtException "bson.errors.InvalidId" :=
  ⟨rfl, rfl, rfl⟩

/-- Claim C2: the claim asserts every subset of the fields name, age and
address passes update-body validation. The code contradicts it: under
pydantic v2 each Optional field of UpdateStudentModel is required, so the
body holding only age is rejected, the empty body is rejected, and only a
body carrying all three keys (possibly with null values) validates. -/
theorem c2_update_fields_required :
    UpdateStudentModel.validate [("age", JValue.int 23)] = none ∧
    UpdateStudentModel.validate [] = none ∧
    UpdateStudentModel.validate exPatchBody = some exPatchModel :=
  ⟨rfl, rfl, rfl⟩

/-- Claim C3: for an update request with a well-formed id and a body that
validates, the write rewrites exactly the non-null body fields of the
matching document (absent-from-update or null fields are never written and
never cleared, as setFirst applies only the fields the model holds); when
the id is stored the outcome is an empty 204 success whether the write
modified one document, modified none, or was skipped for an empty update
set, and when the id is not stored the existence probe yields the 404
not-found error naming the id. -/
theorem c3_update_student_correct (store : Store) (id : String) (body : JObj)
    (m : UpdateStudentModel)
    (hv : UpdateStudentModel.validate body = some m)
    (hid : objectIdValid id = true) :
    (∀ d, findOne store id = some d →
      update_student store id body = (Response.success 204 (), setFirst store id m)) ∧
    (findOne store id = none →
      update_student store id body =
        (Response.httpError 404 ("Student " ++ id ++ " not found"), store)) :=
  ⟨fun d hd => update_student_found store id body m d hv hid hd,
   fun hd => update_student_missing store id body m hv hid hd⟩

/-- Witness for claim C3 at a one-record store: patching the stored id
with a body setting age yields 204 and the rewritten store. -/
theorem c3_witness :
    update_student exStore exId exPatchBody =
      (Response.success 204 (), setFirst exStore exId exPatchModel) :=
  (c3_update_student_correct exStore exId exPatchBody exPatchModel rfl (by decide)).1
    exDoc rfl

/-- Claim C4: a creation request whose body validates drops any
client-supplied identifier (the inserted document and the response are
built only from the body's name, age and address), inserts exactly one new
document, and answers 201 with the string form of the store-assigned id. -/
theorem c4_create_student_correct (store : Store) (freshId : String) (body : JObj)
    (s : StudentModel) (hv : StudentModel.validate body = some s) :
    create_student store freshId body =
      (Response.success 201 ⟨freshId⟩,
       (freshId, StudentDoc.mk s.name s.age s.address) :: store) :=
  create_student_eq store freshId body s hv

/-- Witness for claim C4 at the empty store and the example body. -/
theorem c4_witness :
    create_student [] exId exCreateBody =
      (Response.success 201 ⟨exId⟩, [(exId, exDoc)]) :=
  c4_create_student_correct [] exId exCreateBody exStudentModel rfl

/-- Claim C5: fetching a well-formed id answers 200 with exactly the
name, age and address of the stored document (the response type carries no
id field) on a match, and a 404 whose detail names the requested id when
no document matches. -/
theorem c5_fetch_student_correct (store : Store) (id : String)
    (hid : objectIdValid id = true) :
    (∀ d, findOne store id = some d →
      fetch_student store id = Response.success 200 ⟨d.name, d.age, d.address⟩) ∧
    (findOne store id = none →
      fetch_student store id =
        Response.httpError 404 ("Student " ++ id ++ " not found")) :=
  ⟨fun d hd => fetch_student_found store id d hid hd,
   fun hd => fetch_student_missing store id hid hd⟩

/-- Witness for claim C5 at a one-record store. -/
theorem c5_witness :
    fetch_student exStore exId = Response.success 200 ⟨"Jane Doe", 22, exAddress⟩ :=
  (c5_fetch_student_correct exStore exId (by decide)).1 exDoc rfl

/-- Claim C6: deleting a well-formed id issues a delete scoped to that id;
a deleted count of one answers 200 with an empty body and removes the
document, a deleted count of zero answers 404 naming the id, and (on a
store with distinct keys) deleting the same record a second time answers
the same 404 rather than crashing. -/
theorem c6_delete_student_correct (store : Store) (id : String)
    (hid : objectIdValid id = true)
    (hnd : (store.map Prod.fst).Nodup) :
    (∀ d, findOne store id = some d →
      delete_student store id = (Response.success 200 (), eraseFirst store id) ∧
      (delete_student (eraseFirst store id) id).1 =
        Response.httpError 404 ("Student " ++ id ++ " not found")) ∧
    (findOne store id = none →
      delete_student store id =
        (Response.httpError 404 ("Student " ++ id ++ " not found"), store)) := by
  constructor
  · intro d hd
    constructor
    · exact delete_student_found store id d hid hd
    · have h2 : findOne (eraseFirst store id) id = none :=
        findOne_eraseFirst_self store id hnd
      rw [delete_student_missing (eraseFirst store id) id hid h2]
  · intro hd
    exact delete_student_missing store id hid hd

/-- Witness for claim C6 at a one-record store: the first delete answers
200 and empties the store, the second answers 404 naming the id. -/
theorem c6_witness :
    delete_student exStore exId = (Response.success 200 (), eraseFirst exStore exId) ∧
    (delete_student (eraseFirst exStore exId) exId).1 =
      Response.httpError 404 ("Student " ++ exId ++ " not found") :=
  (c6_delete_student_correct exStore exId (by decide) (by decide)).1 exDoc rfl

/-- Counterexample to claim C7 as stated: with the country filter given as
the empty string, the claim requires exactly the records whose
address.country equals the empty string (none in this store), but the
handler's truthiness test drops the filter and returns the record whose
country is India. -/
theorem c7_empty_country_counterexample :
    ¬ ((list_students exStore (some "") none).data =
       (exStore.filter (fun p => p.2.address.country == "")).map
         (fun p => ListResponseStudent.mk p.2.name p.2.age)) := by decide

/-- Claim C7 as amended: when the country parameter is absent or a
non-empty string (an empty-string country is treated by the handler as no
filter at all), and within the 1000-record cap, the list endpoint selects
exactly the records matching the equality filter on address.country and
the minimum filter on age, combined with logical AND; with neither filter
all records are selected. -/
theorem c7_list_filters_correct (store : Store) (country : Option String)
    (age : Option Int)
    (hc : ∀ c, country = some c → c ≠ "")
    (hlen : store.length ≤ 1000) :
    (list_students store country age).data =
      (store.filter (fun p =>
        (match country with
         | some c => p.2.address.country == c
         | none => true) &&
        (match age with
         | some a => decide (a ≤ p.2.age)
         | none => true))).map (fun p => ListResponseStudent.mk p.2.name p.2.age) :=
  list_students_eq store country age hc hlen

/-- Witness for claim C7 on a two-record store with both filters given. -/
theorem c7_witness :
    (list_students exStore2 (some "India") (some 21)).data =
      (exStore2.filter (fun p =>
        (match some "India" with
         | some c => p.2.address.country == c
         | none => true) &&
        (match some (21 : Int) with
         | some a => decide (a ≤ p.2.age)
         | none => true))).map (fun p => ListResponseStudent.mk p.2.name p.2.age) :=
  c7_list_filters_correct exStore2 (some "India") (some 21)
    (fun c hc => by
      injection hc with h
      rw [← h]
      decide)
    (by decide)

/-- Claim C8: every list response is the named container whose data array
holds at most 1000 entries, each entry being the name-and-age projection
of some stored record (the ListResponseStudent element type carries no id
and no address field). -/
theorem c8_list_shape_and_cap (store : Store) (country : Option String)
    (age : Option Int) :
    (list_students store country age).data.length ≤ 1000 ∧
    ∀ r ∈ (list_students store country age).data,
      ∃ p ∈ store, r = ListResponseStudent.mk p.2.name p.2.age :=
  list_students_shape store country age

/-- Witness for claim C8 at a one-record store with no filters. -/
theorem c8_witness : (list_students exStore none none).data.length ≤ 1000 :=
  (c8_list_shape_and_cap exStore none none).1

/-- Claim C9: creating a student from a body that validates and then
fetching the id returned by the creation response yields exactly the
name, age and address of the creation payload. -/
theorem c9_create_fetch_roundtrip (store : Store) (freshId : String) (body : JObj)
    (s : StudentModel)
    (hv : StudentModel.validate body = some s)
    (hid : objectIdValid freshId = true) :
    (create_student store freshId body).1 = Response.success 201 ⟨freshId⟩ ∧
    fetch_student (create_student store freshId body).2 freshId =
      Response.success 200 ⟨s.name, s.age, s.address⟩ := by
  have hc := create_student_eq store freshId body s hv
  constructor
  · rw [hc]
  · rw [hc]
    have hf : findOne ((freshId, StudentDoc.mk s.name s.age s.address) :: store) freshId
        = some (StudentDoc.mk s.name s.age s.address) := by
      simp [findOne]
    exact fetch_student_found _ freshId _ hid hf

/-- Witness for claim C9 at the empty store and the example body. -/
theorem c9_witness :
    (create_student [] exId exCreateBody).1 = Response.success 201 ⟨exId⟩ ∧
    fetch_student (create_student [] exId exCreateBody).2 exId =
      Response.success 200 ⟨"Jane Doe", 22, exAddress⟩ :=
  c9_create_fetch_roundtrip [] exId exCreateBody exStudentModel rfl (by decide)

/-- Counterexample to claim C10 as stated: a payload whose name is the
empty string is accepted by validation (the source puts no non-emptiness
constraint on name), contradicting the claim that it is rejected. -/
theorem c10_empty_name_accepted :
    StudentModel.validate
      [("name", JValue.str ""), ("age", JValue.int 22),
       ("address", JValue.obj exAddrFields)] =
      some ⟨none, "", 22, exAddress⟩ := rfl

/-- Claim C10 as amended: creation validation accepts a payload exactly
when name is present with a string value (possibly empty), age with an
integer value, and address with an object carrying string city and
country values; the empty-string name is accepted, not rejected. -/
theorem c10_create_validation_characterized (body : JObj) :
    (StudentModel.validate body).isSome = true ↔
      (∃ n, jLookup body "name" = some (JValue.str n)) ∧
      (∃ a, jLookup body "age" = some (JValue.int a)) ∧
      (∃ fields, jLookup body "address" = some (JValue.obj fields) ∧
        (∃ c, jLookup fields "city" = some (JValue.str c)) ∧
        (∃ k, jLookup fields "country" = some (JValue.str k))) := by
  rw [studentModel_validate_isSome]
  constructor
  · rintro ⟨hn, ha, ⟨av, hav, hs⟩⟩
    obtain ⟨fields, hveq, hc, hk⟩ := (addressModel_validate_isSome av).mp hs
    subst hveq
    exact ⟨hn, ha, ⟨fields, hav, hc, hk⟩⟩
  · rintro ⟨hn, ha, ⟨fields, hf, hc, hk⟩⟩
    exact ⟨hn, ha, ⟨JValue.obj fields, hf,
      (addressModel_validate_isSome _).mpr ⟨fields, rfl, hc, hk⟩⟩⟩

/-- Witness for claim C10: the example creation body satisfies the
characterization, so it validates. -/
theorem c10_witness : (StudentModel.validate exCreateBody).isSome = true :=
  (c10_create_validation_characterized exCreateBody).mpr
    ⟨⟨"Jane Doe", rfl⟩, ⟨22, rfl⟩, ⟨exAddrFields, rfl, ⟨"Agra", rfl⟩, ⟨"India", rfl⟩⟩⟩
